import Mathlib

/-!
Verification of the Yuna DB codec-pipeline and metadata-consistency core
(`src/yuna/plugins.py`, `src/yuna/__init__.py`, `src/yuna/lmdb_util.py`)
against its natural-language specification.

The Python code is shallowly embedded: byte strings are `List Nat`, Python
values are a small dynamic-value type `PyVal`, fallible Python code returns
`Except PyErr`.  The LMDB storage engine is an external collaborator, so it
is modelled at its interface boundary: a sub-store ("table") is a list of
key/value byte-string pairs kept in ascending lexicographic (memcmp) key
order, a read transaction on a read-only environment succeeds while a write
transaction raises the engine's read-only error, the engine rejects empty
keys and non-bytes keys/values, and a cursor `set_range` positions at the
first entry whose key is greater than or equal to the sought key.
-/

namespace YunaModel

/-- A Python byte string, one `Nat` per byte. -/
abbrev Bytes := List Nat

/-- Lexicographic (memcmp-style) strict order on byte strings: the order in
which both Python compares `bytes` and LMDB orders its keys.  A proper
prefix compares less than the longer string. -/
def bytesLt : Bytes → Bytes → Bool
  | [], [] => false
  | [], _ :: _ => true
  | _ :: _, [] => false
  | a :: as, b :: bs => if a < b then true else if b < a then false else bytesLt as bs

/-- A Python runtime value, as far as the embedded code needs to
distinguish values: `None`, byte strings, text strings and integers. -/
inductive PyVal where
  | vnone
  | vbytes (b : Bytes)
  | vstr (s : String)
  | vint (n : Int)
deriving DecidableEq, Repr

/-- The Python exceptions the embedded code can raise.  `lmdbReadonlyError`
is the engine error raised when a write transaction is begun on an
environment opened read-only; `lmdbBadValsize` is the engine error for an
empty storage key; `assertionError` is a failed `assert` statement
(the schema-mismatch failure of `YunaTable.__init__`); `yunaInvalidDB` is
`YunaInvalidDB` from `lmdb_util.py`. -/
inductive PyErr where
  | keyError (k : PyVal)
  | nameError (n : String)
  | valueError (msg : String)
  | typeError (msg : String)
  | runtimeError (msg : String)
  | assertionError
  | lmdbReadonlyError
  | lmdbBadValsize
  | fileNotFoundError (fname : String)
  | yunaInvalidDB (msg : String)
deriving DecidableEq, Repr

/-- A Python optional argument guarded by the module-private sentinel
`_YUNA_NOT_PROVIDED = object()` (`plugins.py` line 46): the sentinel is a
fresh object, distinct by identity from `None` and from every value a
caller can pass, so "no default supplied" is a constructor of its own and
`given v` carries the caller's default (which may be `PyVal.vnone`). -/
inductive Dflt where
  | notProvided
  | given (v : PyVal)
deriving DecidableEq, Repr

/-! ### UTF-8, `serialize_str` / `deserialize_str` (`plugins.py` lines 122-136) -/

/-- UTF-8 encoding of one character, as produced by Python
`str.encode("utf-8")`. -/
def utf8EncodeChar (c : Char) : List Nat :=
  let n := c.toNat
  if n < 0x80 then [n]
  else if n < 0x800 then
    [0xC0 + n / 0x40, 0x80 + n % 0x40]
  else if n < 0x10000 then
    [0xE0 + n / 0x1000, 0x80 + (n / 0x40) % 0x40, 0x80 + n % 0x40]
  else
    [0xF0 + n / 0x40000, 0x80 + (n / 0x1000) % 0x40, 0x80 + (n / 0x40) % 0x40, 0x80 + n % 0x40]

/-- UTF-8 encoding of a string, as produced by Python `s.encode("utf-8")`. -/
def utf8Encode (s : String) : Bytes :=
  (s.data.map utf8EncodeChar).flatten

/-- Strict UTF-8 decoding, as performed by Python `str(b, "utf-8")`:
`none` models a `UnicodeDecodeError`.  Continuation bytes must lie in
`0x80..0xBF`; overlong encodings, surrogates and out-of-range code points
are rejected. -/
def utf8Decode : Bytes → Option (List Char)
  | [] => some []
  | b :: bs =>
    if b < 0x80 then
      (utf8Decode bs).map (fun cs => Char.ofNat b :: cs)
    else if b < 0xC2 then
      none
    else if b < 0xE0 then
      match bs with
      | b1 :: rest =>
        if 0x80 ≤ b1 ∧ b1 < 0xC0 then
          let n := (b - 0xC0) * 0x40 + (b1 - 0x80)
          (utf8Decode rest).map (fun cs => Char.ofNat n :: cs)
        else none
      | [] => none
    else if b < 0xF0 then
      match bs with
      | b1 :: b2 :: rest =>
        if 0x80 ≤ b1 ∧ b1 < 0xC0 ∧ 0x80 ≤ b2 ∧ b2 < 0xC0 then
          let n := (b - 0xE0) * 0x1000 + (b1 - 0x80) * 0x40 + (b2 - 0x80)
          if 0x800 ≤ n ∧ ¬(0xD800 ≤ n ∧ n < 0xE000) then
            (utf8Decode rest).map (fun cs => Char.ofNat n :: cs)
          else none
        else none
      | _ => none
    else if b < 0xF5 then
      match bs with
      | b1 :: b2 :: b3 :: rest =>
        if 0x80 ≤ b1 ∧ b1 < 0xC0 ∧ 0x80 ≤ b2 ∧ b2 < 0xC0 ∧ 0x80 ≤ b3 ∧ b3 < 0xC0 then
          let n := (b - 0xF0) * 0x40000 + (b1 - 0x80) * 0x1000 + (b2 - 0x80) * 0x40 + (b3 - 0x80)
          if 0x10000 ≤ n ∧ n < 0x110000 then
            (utf8Decode rest).map (fun cs => Char.ofNat n :: cs)
          else none
        else none
      | _ => none
    else none

/-- Embeds `serialize_str` (`plugins.py` line 124): `s.encode("utf-8")`.
Calling it with a non-string raises, which models Python's dynamic
`AttributeError` as a `typeError`. -/
def serialize_str (v : PyVal) : Except PyErr Bytes :=
  match v with
  | .vstr s => .ok (utf8Encode s)
  | _ => .error (.typeError "serialize_str expects str")

/-- Embeds `deserialize_str` (`plugins.py` line 127): `str(b, "utf-8")`. -/
def deserialize_str (b : Bytes) : Except PyErr PyVal :=
  match utf8Decode b with
  | some cs => .ok (.vstr (String.mk cs))
  | none => .error (.valueError "UnicodeDecodeError")

/-! ### Codec plugins (`plugins.py` `SerializePlugins` / `CompressPlugins`) -/

/-- Embeds `SerializePlugins` (`plugins.py` line 49): a serialize /
deserialize function pair.  Concrete codecs (JSON, msgpack) are external
collaborators, so plugins are arbitrary function pairs here; the built-in
`str` codec is `strPlugins` below. -/
structure SerializePlugins where
  serialize : PyVal → Except PyErr Bytes
  deserialize : Bytes → Except PyErr PyVal

/-- Embeds `CompressPlugins` (`plugins.py` line 61): a compress /
decompress function pair over byte strings. -/
structure CompressPlugins where
  compress : Bytes → Except PyErr Bytes
  decompress : Bytes → Except PyErr Bytes

/-- The `str` serialization plugin registered by `_import_str`
(`plugins.py` line 130). -/
def strPlugins : SerializePlugins :=
  { serialize := serialize_str, deserialize := deserialize_str }

/-- A concrete stand-in compression codec used to instantiate theorems at
explicit inputs (concrete compressors such as zlib are external
collaborators specified only as inverse function pairs): it prepends a tag
byte, and decompressing strips it. -/
def tagCompress : CompressPlugins :=
  { compress := fun b => .ok (7 :: b)
    decompress := fun b =>
      match b with
      | 7 :: rest => .ok rest
      | _ => .error (.valueError "bad frame") }

/-- Embeds `_return_bytes_unchanged` composed with the engine's bytes-only
key requirement: when a table has no key-serialization plugin the logical
key is passed through unchanged, and the engine accepts it only if it
already is a byte string. -/
def _return_bytes_unchanged (v : PyVal) : Except PyErr Bytes :=
  match v with
  | .vbytes b => .ok b
  | _ => .error (.typeError "Engine keys must be bytes")

/-- The key-serialization function every factory builds:
`key_plugins.serialize if key_plugins else _return_bytes_unchanged`
(for example `plugins.py` line 273). -/
def fn_key_serialize (kp : Option SerializePlugins) (v : PyVal) : Except PyErr Bytes :=
  match kp with
  | some p => p.serialize v
  | none => _return_bytes_unchanged v

/-- The key-deserialization function used by the range scans:
`key_plugins.deserialize if key_plugins else _return_bytes_unchanged`
(`plugins.py` line 491); with no plugin the raw byte key is yielded. -/
def fn_key_deserialize (kp : Option SerializePlugins) (b : Bytes) : Except PyErr PyVal :=
  match kp with
  | some p => p.deserialize b
  | none => .ok (.vbytes b)

/-! ### The engine's per-table store, at its interface boundary -/

/-- One engine sub-store: key/value byte-string pairs, kept in ascending
`bytesLt` order of the key (LMDB orders entries by memcmp on the key). -/
abbrev Tbl := List (Bytes × Bytes)

/-- A store is sorted when its keys are strictly ascending in `bytesLt`. -/
def TblSorted (t : Tbl) : Prop :=
  t.Pairwise (fun a b => bytesLt a.1 b.1 = true)

/-- Engine point lookup inside a read transaction: the value stored under
`key`, or `none` when absent.  Read transactions succeed on both read-only
and writable environments. -/
def tblLookup (t : Tbl) (key : Bytes) : Option Bytes :=
  match t with
  | [] => none
  | (k, v) :: rest => if k = key then some v else tblLookup rest key

/-- Engine upsert: inserts `key ↦ value`, replacing any previous entry and
keeping the store sorted. -/
def tblInsert (key value : Bytes) : Tbl → Tbl
  | [] => [(key, value)]
  | (k, v) :: rest =>
    if bytesLt key k then (key, value) :: (k, v) :: rest
    else if key = k then (key, value) :: rest
    else (k, v) :: tblInsert key value rest

/-- Embeds `_lmdb_table_get` (`lmdb_util.py` line 131) with its default
logic: found values come back as byte strings; on a miss the caller's
default is returned, or `KeyError` is raised when no default was supplied
(the `_LMDB_UTIL_NOT_PROVIDED` sentinel). -/
def _lmdb_table_get (t : Tbl) (key : Bytes) (default : Dflt) : Except PyErr PyVal :=
  match tblLookup t key with
  | some r => .ok (.vbytes r)
  | none =>
    match default with
    | .notProvided => .error (.keyError (.vbytes key))
    | .given d => .ok d

/-- Embeds `_lmdb_table_put` (`lmdb_util.py` line 147) together with the
engine behavior at the write boundary: beginning the write transaction on a
read-only environment raises the engine's read-only error (before the key
or value is examined), the engine stores only byte-string values, and it
rejects an empty key. -/
def _lmdb_table_put (read_only : Bool) (t : Tbl) (key : Bytes) (value : PyVal) :
    Except PyErr Tbl :=
  if read_only then .error .lmdbReadonlyError
  else
    match value with
    | .vbytes bv =>
      if key.isEmpty then .error .lmdbBadValsize
      else .ok (tblInsert key bv t)
    | _ => .error (.typeError "Engine values must be bytes")

/-- The engine cursor after `cursor.set_range(bytes_start)` (or a fresh
cursor when no start bound was given), read off as the list of entries the
forward iteration will visit: everything from the first entry whose key is
greater than or equal to `bytes_start`. -/
def cursorFrom (t : Tbl) (bytes_start : Option Bytes) : Tbl :=
  match bytes_start with
  | none => t
  | some s => t.dropWhile (fun kv => bytesLt kv.1 s)

/-- The `if bytes_key >= bytes_stop: break` loop of every range scan
(for example `plugins.py` line 508), applied to a cursor's entry list:
iteration continues while the key is strictly below the stop bound. -/
def cursorUpto (entries : Tbl) (bytes_stop : Option Bytes) : Tbl :=
  match bytes_stop with
  | none => entries
  | some e => entries.takeWhile (fun kv => bytesLt kv.1 e)

/-- Embeds `_empty_string_key_check` (`plugins.py` line 82): `None` and
integers are skipped; an empty string or empty byte string raises
`ValueError` ("key cannot be empty string", the spec's `InvalidKey`). -/
def _empty_string_key_check (x : Option PyVal) : Except PyErr Unit :=
  match x with
  | none => .ok ()
  | some (.vint _) => .ok ()
  | some .vnone => .ok ()
  | some (.vstr s) =>
    if s.isEmpty then .error (.valueError "key cannot be empty string") else .ok ()
  | some (.vbytes b) =>
    if b.isEmpty then .error (.valueError "key cannot be empty string") else .ok ()

/-! ### The synthesized `get` operations (`plugins.py` lines 267-376) -/

/-- Embeds the `get` built by `_get_table_raw_factory` (`plugins.py`
line 275): serialize the key, look it up with default `None`, and on a miss
return the caller's default or raise `KeyError(key)` when none was
supplied; found values are returned as raw bytes. -/
def get_table_raw (kp : Option SerializePlugins) (t : Tbl) (key : PyVal) (default : Dflt) :
    Except PyErr PyVal := do
  let bytes_key ← fn_key_serialize kp key
  let result ← _lmdb_table_get t bytes_key (.given .vnone)
  if result = PyVal.vnone then
    match default with
    | .notProvided => .error (.keyError key)
    | .given d => .ok d
  else .ok result

/-- Embeds the `get` built by `_get_table_deserialize_factory`
(`plugins.py` line 298): as the raw form, but a found value is passed
through `fn_value_deserialize`. -/
def get_table_deserialize (kp : Option SerializePlugins) (vs : SerializePlugins)
    (t : Tbl) (key : PyVal) (default : Dflt) : Except PyErr PyVal := do
  let bytes_key ← fn_key_serialize kp key
  let result ← _lmdb_table_get t bytes_key (.given .vnone)
  if result = PyVal.vnone then
    match default with
    | .notProvided => .error (.keyError key)
    | .given d => .ok d
  else
    match result with
    | .vbytes b => vs.deserialize b
    | _ => .error (.typeError "deserialize expects bytes")

/-- Embeds the `get` built by `_get_table_decompress_factory`
(`plugins.py` line 321): a found value is passed through
`fn_value_decompress`. -/
def get_table_decompress (kp : Option SerializePlugins) (vc : CompressPlugins)
    (t : Tbl) (key : PyVal) (default : Dflt) : Except PyErr PyVal := do
  let bytes_key ← fn_key_serialize kp key
  let result ← _lmdb_table_get t bytes_key (.given .vnone)
  if result = PyVal.vnone then
    match default with
    | .notProvided => .error (.keyError key)
    | .given d => .ok d
  else
    match result with
    | .vbytes b => do
      let d ← vc.decompress b
      .ok (.vbytes d)
    | _ => .error (.typeError "decompress expects bytes")

/-- Embeds the `get` built by `_get_table_deserialize_decompress_factory`
(`plugins.py` line 348): a found value is decompressed first and the
result deserialized, `fn_value_deserialize(fn_value_decompress(result))`. -/
def get_table_deserialize_decompress (kp : Option SerializePlugins)
    (vs : SerializePlugins) (vc : CompressPlugins)
    (t : Tbl) (key : PyVal) (default : Dflt) : Except PyErr PyVal := do
  let bytes_key ← fn_key_serialize kp key
  let result ← _lmdb_table_get t bytes_key (.given .vnone)
  if result = PyVal.vnone then
    match default with
    | .notProvided => .error (.keyError key)
    | .given d => .ok d
  else
    match result with
    | .vbytes b => do
      let d ← vc.decompress b
      vs.deserialize d
    | _ => .error (.typeError "decompress expects bytes")

/-- Embeds `get_factory` (`plugins.py` line 359): dispatch on which of the
value-serialize and value-compress plugins are configured.  A `some`
plugin stands for a truthy codec tag resolved through the registry. -/
def get_factory (kp : Option SerializePlugins)
    (vs : Option SerializePlugins) (vc : Option CompressPlugins)
    (t : Tbl) (key : PyVal) (default : Dflt) : Except PyErr PyVal :=
  match vs, vc with
  | some s, some c => get_table_deserialize_decompress kp s c t key default
  | none, some c => get_table_decompress kp c t key default
  | some s, none => get_table_deserialize kp s t key default
  | none, none => get_table_raw kp t key default

/-! ### The synthesized `put` operations (`plugins.py` lines 379-467) -/

/-- Embeds the `put` built by `_put_table_raw_factory` (`plugins.py`
line 387): serialize the key and store the caller's byte value as is. -/
def put_table_raw (read_only : Bool) (kp : Option SerializePlugins)
    (t : Tbl) (key value : PyVal) : Except PyErr Tbl := do
  let bytes_key ← fn_key_serialize kp key
  _lmdb_table_put read_only t bytes_key value

/-- Embeds the `put` built by `_put_table_serialize_factory` (`plugins.py`
line 404): the value is serialized before storing. -/
def put_table_serialize (read_only : Bool) (kp : Option SerializePlugins)
    (vs : SerializePlugins) (t : Tbl) (key value : PyVal) : Except PyErr Tbl := do
  let bytes_key ← fn_key_serialize kp key
  let bytes_value ← vs.serialize value
  _lmdb_table_put read_only t bytes_key (.vbytes bytes_value)

/-- Embeds the `put` built by `_put_table_compress_factory` (`plugins.py`
line 422).  The source body is

    bytes_key = fn_key_serialize(key)
    bytes_value = fn_value_compress(result)
    _lmdb_table_put(env, table, bytes_key, bytes_value)

and the name `result` is unbound in that scope, so after computing the
byte key the call raises `NameError` before anything is compressed or
stored. -/
def put_table_compress (read_only : Bool) (kp : Option SerializePlugins)
    (vc : CompressPlugins) (t : Tbl) (key value : PyVal) : Except PyErr Tbl := do
  let bytes_key ← fn_key_serialize kp key
  let _ := bytes_key
  let _ := vc
  let _ := value
  let _ := read_only
  let _ := t
  .error (.nameError "result")

/-- Embeds the `put` built by `_put_table_serialize_compress_factory`
(`plugins.py` line 444): the value is serialized first and the result
compressed, `fn_value_compress(fn_value_serialize(value))`, before
storing. -/
def put_table_serialize_compress (read_only : Bool) (kp : Option SerializePlugins)
    (vs : SerializePlugins) (vc : CompressPlugins)
    (t : Tbl) (key value : PyVal) : Except PyErr Tbl := do
  let bytes_key ← fn_key_serialize kp key
  let serialized ← vs.serialize value
  let bytes_value ← vc.compress serialized
  _lmdb_table_put read_only t bytes_key (.vbytes bytes_value)

/-- Embeds `put_factory` (`plugins.py` line 450): dispatch on which of the
value-serialize and value-compress plugins are configured. -/
def put_factory (read_only : Bool) (kp : Option SerializePlugins)
    (vs : Option SerializePlugins) (vc : Option CompressPlugins)
    (t : Tbl) (key value : PyVal) : Except PyErr Tbl :=
  match vs, vc with
  | some s, some c => put_table_serialize_compress read_only kp s c t key value
  | none, some c => put_table_compress read_only kp c t key value
  | some s, none => put_table_serialize read_only kp s t key value
  | none, none => put_table_raw read_only kp t key value

/-! ### The synthesized range scans (`plugins.py` lines 484-828)

Each scan is a Python generator; it is embedded as the list of values the
fully-consumed generator yields, or the exception it raises before
completing.  The empty-key checks run first, then the bounds are
serialized, then the cursor is positioned with `set_range`. -/

/-- Serializes an optional range bound exactly as the scans do:
`fn_key_serialize(start) if (start is not None) else None`. -/
def serializeBound (kp : Option SerializePlugins) (x : Option PyVal) :
    Except PyErr (Option Bytes) :=
  match x with
  | none => .ok none
  | some v => do
    let b ← fn_key_serialize kp v
    .ok (some b)

/-- Embeds the `keys` built by `keys_factory` (`plugins.py` line 493):
check the bounds, serialize them, scan from the first key at or beyond
`start`, stop before the first key at or beyond `stop`, and yield each
byte key through `fn_key_deserialize`. -/
def keys_op (kp : Option SerializePlugins) (t : Tbl) (start stop : Option PyVal) :
    Except PyErr (List PyVal) := do
  _empty_string_key_check start
  _empty_string_key_check stop
  let bytes_start ← serializeBound kp start
  let bytes_stop ← serializeBound kp stop
  let entries := cursorUpto (cursorFrom t bytes_start) bytes_stop
  entries.mapM (fun kv => fn_key_deserialize kp kv.1)

/-- Embeds the `items` built by `_items_table_raw_factory` (`plugins.py`
line 524): byte values are yielded unchanged. -/
def items_table_raw (kp : Option SerializePlugins) (t : Tbl) (start stop : Option PyVal) :
    Except PyErr (List (PyVal × PyVal)) := do
  _empty_string_key_check start
  _empty_string_key_check stop
  let bytes_start ← serializeBound kp start
  let bytes_stop ← serializeBound kp stop
  let entries := cursorUpto (cursorFrom t bytes_start) bytes_stop
  entries.mapM (fun kv => do
    let k ← fn_key_deserialize kp kv.1
    .ok (k, PyVal.vbytes kv.2))

/-- Embeds the `items` built by `_items_table_deserialize_factory`
(`plugins.py` line 562): each byte value is deserialized. -/
def items_table_deserialize (kp : Option SerializePlugins) (vs : SerializePlugins)
    (t : Tbl) (start stop : Option PyVal) : Except PyErr (List (PyVal × PyVal)) := do
  _empty_string_key_check start
  _empty_string_key_check stop
  let bytes_start ← serializeBound kp start
  let bytes_stop ← serializeBound kp stop
  let entries := cursorUpto (cursorFrom t bytes_start) bytes_stop
  entries.mapM (fun kv => do
    let k ← fn_key_deserialize kp kv.1
    let v ← vs.deserialize kv.2
    .ok (k, v))

/-- Embeds the `items` built by `_items_table_decompress_factory`
(`plugins.py` line 598): each byte value is decompressed. -/
def items_table_decompress (kp : Option SerializePlugins) (vc : CompressPlugins)
    (t : Tbl) (start stop : Option PyVal) : Except PyErr (List (PyVal × PyVal)) := do
  _empty_string_key_check start
  _empty_string_key_check stop
  let bytes_start ← serializeBound kp start
  let bytes_stop ← serializeBound kp stop
  let entries := cursorUpto (cursorFrom t bytes_start) bytes_stop
  entries.mapM (fun kv => do
    let k ← fn_key_deserialize kp kv.1
    let v ← vc.decompress kv.2
    .ok (k, PyVal.vbytes v))

/-- Embeds the `items` built by
`_items_table_deserialize_decompress_factory` (`plugins.py` line 638):
each byte value is decompressed and the result deserialized. -/
def items_table_deserialize_decompress (kp : Option SerializePlugins)
    (vs : SerializePlugins) (vc : CompressPlugins)
    (t : Tbl) (start stop : Option PyVal) : Except PyErr (List (PyVal × PyVal)) := do
  _empty_string_key_check start
  _empty_string_key_check stop
  let bytes_start ← serializeBound kp start
  let bytes_stop ← serializeBound kp stop
  let entries := cursorUpto (cursorFrom t bytes_start) bytes_stop
  entries.mapM (fun kv => do
    let k ← fn_key_deserialize kp kv.1
    let d ← vc.decompress kv.2
    let v ← vs.deserialize d
    .ok (k, v))

/-- Embeds `items_factory` (`plugins.py` line 661). -/
def items_factory (kp : Option SerializePlugins)
    (vs : Option SerializePlugins) (vc : Option CompressPlugins)
    (t : Tbl) (start stop : Option PyVal) : Except PyErr (List (PyVal × PyVal)) :=
  match vs, vc with
  | some s, some c => items_table_deserialize_decompress kp s c t start stop
  | none, some c => items_table_decompress kp c t start stop
  | some s, none => items_table_deserialize kp s t start stop
  | none, none => items_table_raw kp t start stop

/-- Embeds the `values` built by `_values_table_raw_factory` (`plugins.py`
line 689): byte values are yielded unchanged, keys are not yielded. -/
def values_table_raw (kp : Option SerializePlugins) (t : Tbl) (start stop : Option PyVal) :
    Except PyErr (List PyVal) := do
  _empty_string_key_check start
  _empty_string_key_check stop
  let bytes_start ← serializeBound kp start
  let bytes_stop ← serializeBound kp stop
  let entries := cursorUpto (cursorFrom t bytes_start) bytes_stop
  .ok (entries.map (fun kv => PyVal.vbytes kv.2))

/-- Embeds the `values` built by `_values_table_deserialize_factory`
(`plugins.py` line 720). -/
def values_table_deserialize (kp : Option SerializePlugins) (vs : SerializePlugins)
    (t : Tbl) (start stop : Option PyVal) : Except PyErr (List PyVal) := do
  _empty_string_key_check start
  _empty_string_key_check stop
  let bytes_start ← serializeBound kp start
  let bytes_stop ← serializeBound kp stop
  let entries := cursorUpto (cursorFrom t bytes_start) bytes_stop
  entries.mapM (fun kv => vs.deserialize kv.2)

/-- Embeds the `values` built by `_values_table_decompress_factory`
(`plugins.py` line 753). -/
def values_table_decompress (kp : Option SerializePlugins) (vc : CompressPlugins)
    (t : Tbl) (start stop : Option PyVal) : Except PyErr (List PyVal) := do
  _empty_string_key_check start
  _empty_string_key_check stop
  let bytes_start ← serializeBound kp start
  let bytes_stop ← serializeBound kp stop
  let entries := cursorUpto (cursorFrom t bytes_start) bytes_stop
  entries.mapM (fun kv => do
    let v ← vc.decompress kv.2
    .ok (PyVal.vbytes v))

/-- Embeds the `values` built by
`_values_table_deserialize_decompress_factory` (`plugins.py` line 790). -/
def values_table_deserialize_decompress (kp : Option SerializePlugins)
    (vs : SerializePlugins) (vc : CompressPlugins)
    (t : Tbl) (start stop : Option PyVal) : Except PyErr (List PyVal) := do
  _empty_string_key_check start
  _empty_string_key_check stop
  let bytes_start ← serializeBound kp start
  let bytes_stop ← serializeBound kp stop
  let entries := cursorUpto (cursorFrom t bytes_start) bytes_stop
  entries.mapM (fun kv => do
    let d ← vc.decompress kv.2
    vs.deserialize d)

/-- Embeds `values_factory` (`plugins.py` line 811). -/
def values_factory (kp : Option SerializePlugins)
    (vs : Option SerializePlugins) (vc : Option CompressPlugins)
    (t : Tbl) (start stop : Option PyVal) : Except PyErr (List PyVal) :=
  match vs, vc with
  | some s, some c => values_table_deserialize_decompress kp s c t start stop
  | none, some c => values_table_decompress kp c t start stop
  | some s, none => values_table_deserialize kp s t start stop
  | none, none => values_table_raw kp t start stop

/-! ### The reserved (unnamed) store (`__init__.py` `YunaReservedTable`,
`lmdb_util.py` reserved helpers) -/

/-- Embeds `_lmdb_reserved_get` (`lmdb_util.py` line 81).  On a miss with
no default supplied the source executes `raise KeyError(key)`, but the
name `key` is unbound in that function (its parameter is `bytes_key`), so
Python raises `NameError` instead. -/
def _lmdb_reserved_get (store : Tbl) (bytes_key : Bytes) (default : Dflt) :
    Except PyErr PyVal :=
  match tblLookup store bytes_key with
  | some r => .ok (.vbytes r)
  | none =>
    match default with
    | .notProvided => .error (.nameError "key")
    | .given d => .ok d

/-- Embeds `YunaReservedTable.raw_get` (`__init__.py` line 134).  It looks
the key up with default `None`; on a miss with no default supplied the
source executes `raise KeyError(key)`, but the name `key` is unbound in
`raw_get` (its parameter is `bytes_key`), so Python raises `NameError`. -/
def reserved_raw_get (store : Tbl) (bytes_key : Bytes) (default : Dflt) :
    Except PyErr PyVal := do
  let bytes_value ← _lmdb_reserved_get store bytes_key (.given .vnone)
  if bytes_value = PyVal.vnone then
    match default with
    | .notProvided => .error (.nameError "key")
    | .given d => .ok d
  else .ok bytes_value

/-- Embeds `YunaReservedTable.raw_keys` (`__init__.py` line 146): the same
scan as `keys_factory` over the reserved store, with raw byte bounds and
byte keys yielded unchanged. -/
def reserved_raw_keys (store : Tbl) (bytes_start bytes_stop : Option Bytes) :
    Except PyErr (List Bytes) := do
  _empty_string_key_check (bytes_start.map PyVal.vbytes)
  _empty_string_key_check (bytes_stop.map PyVal.vbytes)
  let entries := cursorUpto (cursorFrom store bytes_start) bytes_stop
  .ok (entries.map (fun kv => kv.1))

/-! ### Table metadata and the database lifecycle (`__init__.py`)

The database metadata record is persisted as JSON under the reserved
sentinel key in the reserved store.  The JSON codec is an external
collaborator, so the persisted record is modelled directly as the decoded
tables map (`_yuna_put_meta` stores it, `_yuna_get_meta` reads it back);
`none` models a file in which the sentinel record is absent.  Likewise the
engine sub-store created alongside a metadata entry is assumed consistent
with that entry, per the engine interface boundary. -/

/-- Embeds `YunaTableMetadata` (`__init__.py` line 205): a table name and
its three codec tags. -/
structure YunaTableMetadata where
  name : String
  key_serialize : Option String
  serialize : Option String
  compress : Option String
deriving DecidableEq, Repr

/-- The tables map of the database metadata record,
`metadata["tables"]`: table name to stored `vars(meta)` entry. -/
abbrev MetaTables := List (String × YunaTableMetadata)

/-- Lookup in a metadata tables map. -/
def metaLookup (m : MetaTables) (name : String) : Option YunaTableMetadata :=
  match m with
  | [] => none
  | (k, v) :: rest => if k = name then some v else metaLookup rest name

/-- Upsert in a metadata tables map (`metadata["tables"][name] = ...`). -/
def metaInsert (m : MetaTables) (name : String) (meta : YunaTableMetadata) : MetaTables :=
  match m with
  | [] => [(name, meta)]
  | (k, v) :: rest => if k = name then (name, meta) :: rest else (k, v) :: metaInsert rest name meta

/-- Removal from a metadata tables map (`del metadata["tables"][name]`). -/
def metaRemove (m : MetaTables) (name : String) : MetaTables :=
  match m with
  | [] => []
  | (k, v) :: rest => if k = name then rest else (k, v) :: metaRemove rest name

/-- The serialization tags with a registered loader,
`_SERIALIZE_IMPORT_FUNCTIONS` (`plugins.py` line 139); `get_serialize_plugins`
raises `ValueError` for any other non-`None` tag. -/
def _SERIALIZE_IMPORT_TAGS : List String := ["json", "msgpack", "str"]

/-- The compression tags with a registered loader,
`_COMPRESS_IMPORT_FUNCTIONS` (`plugins.py` line 212). -/
def _COMPRESS_IMPORT_TAGS : List String := ["lz4", "zlib", "zstd"]

/-- Embeds the success/failure behavior of `get_serialize_plugins`
(`plugins.py` line 219): `None` means identity and is accepted; an
unknown tag raises `ValueError`. -/
def get_serialize_plugins_check (tag : Option String) : Except PyErr Unit :=
  match tag with
  | none => .ok ()
  | some t =>
    if t ∈ _SERIALIZE_IMPORT_TAGS then .ok ()
    else .error (.valueError "unknown serialization format")

/-- Embeds the success/failure behavior of `get_compress_plugins`
(`plugins.py` line 235). -/
def get_compress_plugins_check (tag : Option String) : Except PyErr Unit :=
  match tag with
  | none => .ok ()
  | some t =>
    if t ∈ _COMPRESS_IMPORT_TAGS then .ok ()
    else .error (.valueError "unknown compression format")

/-- Embeds `YunaSharedData` (`__init__.py` line 53): the state shared by
the database facade and its table handles.  `tables_map` holds the names
of the open table handles together with their resolved metadata
(`vars(self.tables)`), `meta_tables` is the in-memory
`metadata["tables"]`, and `is_dirty` is the dirty flag (initialized
`False`). -/
structure YunaSharedData where
  read_only : Bool
  is_dirty : Bool
  tables_map : MetaTables
  meta_tables : MetaTables
deriving DecidableEq, Repr

/-- An open Yuna database together with the persistent content of its
backing file that the metadata manager touches: `file` is the metadata
record stored under the reserved sentinel key (`none` when absent). -/
structure YunaDB where
  file : Option MetaTables
  shared : YunaSharedData
deriving DecidableEq, Repr

/-- Embeds `_yuna_put_meta` (`lmdb_util.py` line 235) at the engine write
boundary: writing the reserved record needs a write transaction, which the
engine refuses on a read-only environment. -/
def _yuna_put_meta (db : YunaDB) (meta : MetaTables) : Except PyErr YunaDB :=
  if db.shared.read_only then .error .lmdbReadonlyError
  else .ok { db with file := some meta }

/-- Embeds `YunaTable.__init__` (`__init__.py` line 411), the
metadata-relevant path: refuse a duplicate open handle, resolve the three
codec tags, decide `create` by whether the name is already recorded in the
metadata, register the handle, and either record the new entry and persist
the metadata immediately (create) or assert that the stored entry equals
the resolved configuration (`assert self._shared.metadata["tables"][name]
== vars(self.meta)`, the spec's `SchemaMismatch`). -/
def YunaTable_init (db : YunaDB) (name : String)
    (key_serialize serialize compress : Option String) : Except PyErr YunaDB := do
  if (metaLookup db.shared.tables_map name).isSome then
    throw (.valueError "table is already open in this database")
  get_serialize_plugins_check key_serialize
  get_serialize_plugins_check serialize
  get_compress_plugins_check compress
  let meta : YunaTableMetadata :=
    { name := name, key_serialize := key_serialize, serialize := serialize, compress := compress }
  let create := (metaLookup db.shared.meta_tables name).isNone
  let shared1 := { db.shared with tables_map := metaInsert db.shared.tables_map name meta }
  let db1 := { db with shared := shared1 }
  if create then
    let meta_tables1 := metaInsert shared1.meta_tables name meta
    let db2 := { db1 with shared := { shared1 with meta_tables := meta_tables1 } }
    _yuna_put_meta db2 meta_tables1
  else
    match metaLookup db.shared.meta_tables name with
    | some stored => if stored = meta then .ok db1 else throw .assertionError
    | none => throw .assertionError

/-- Embeds `_yuna_get_meta` (`lmdb_util.py` line 190) at the metadata
level: a missing reserved record means the file is not a Yuna DB.  (The
name/version checks are orthogonal to the claims and are elided along with
those arguments.) -/
def _yuna_get_meta (file : Option MetaTables) : Except PyErr MetaTables :=
  match file with
  | none => .error (.yunaInvalidDB "LMDB file is not a Yuna DB file")
  | some m => .ok m

/-- Embeds `Yuna.__init__` (`__init__.py` line 525), the metadata-relevant
path: `create` forces `read_only = False` (line 540); a created database
starts from a fresh metadata record with an empty tables map
(`_yuna_new_meta`), an opened one loads the stored record; then one
`YunaTable` handle is constructed per stored entry. -/
def Yuna_init (file : Option MetaTables) (read_only create : Bool) : Except PyErr YunaDB := do
  let read_only := if create then false else read_only
  let metadata ← if create then pure ([] : MetaTables) else _yuna_get_meta file
  let db0 : YunaDB :=
    { file := if create then none else file
      shared :=
        { read_only := read_only, is_dirty := false, tables_map := [], meta_tables := metadata } }
  metadata.foldlM
    (fun db entry =>
      YunaTable_init db entry.2.name entry.2.key_serialize entry.2.serialize entry.2.compress)
    db0

/-- Embeds `Yuna.new_table` (`__init__.py` line 605): refuse on a
read-only database, construct the `YunaTable` (which registers the handle
and persists the new metadata entry), then set the dirty flag. -/
def Yuna_new_table (db : YunaDB) (name : String)
    (key_serialize serialize compress : Option String) : Except PyErr YunaDB := do
  if db.shared.read_only then
    throw (.runtimeError "database was opened read-only; cannot make new table")
  let db1 ← YunaTable_init db name key_serialize serialize compress
  .ok { db1 with shared := { db1.shared with is_dirty := true } }

/-- Embeds `YunaTable.drop` (`__init__.py` line 501): refuse on a
read-only database, set the dirty flag, drop the engine sub-store, and
remove both the open handle and the metadata entry. -/
def YunaTable_drop (db : YunaDB) (name : String) : Except PyErr YunaDB :=
  if db.shared.read_only then
    throw (.runtimeError "database was opened read-only; cannot drop table")
  else
    .ok { db with
          shared :=
            { db.shared with
              is_dirty := true
              tables_map := metaRemove db.shared.tables_map name
              meta_tables := metaRemove db.shared.meta_tables name } }

/-- Embeds `Yuna.close` (`__init__.py` line 585): when the metadata is
dirty and the database is writable, the record is persisted and the dirty
flag cleared; then the engine handle is closed.  Idempotence (the
`"_shared" not in vars(self)` guard) is at the Python attribute level and
outside this state model. -/
def Yuna_close (db : YunaDB) : YunaDB :=
  if db.shared.is_dirty ∧ db.shared.read_only = false then
    { db with
      file := some db.shared.meta_tables
      shared := { db.shared with is_dirty := false } }
  else db

/-- Embeds `Yuna.sync` (`__init__.py` line 574): the same conditional
metadata persist and dirty-flag clear as `close`, followed by
`_lmdb_sync(self._shared.env)` — and `_lmdb_sync` is never imported into
`__init__.py`, so that final call raises `NameError` after the metadata
write.  The result pairs the state reached with the raised error. -/
def Yuna_sync (db : YunaDB) : YunaDB × Except PyErr Unit :=
  (Yuna_close db, .error (.nameError "_lmdb_sync"))

/-! ### Opening the backing file (`lmdb_util.py` `_lmdb_open`) -/

/-- The filesystem at the engine-open boundary: the set of existing
paths. -/
abbrev FS := List String

/-- Embeds `_delete_file_or_dir` (`lmdb_util.py` line 63): remove the path
if it exists, whether file or directory; silently succeed otherwise. -/
def _delete_file_or_dir (fs : FS) (fname : String) : FS :=
  fs.erase fname

/-- The engine handle configuration `_lmdb_open` produces, as far as the
claims observe it. -/
structure LmdbEnvCfg where
  readonly : Bool
deriving DecidableEq, Repr

/-- Embeds `_lmdb_open` (`lmdb_util.py` line 249): validate the safety
mode; without `create`, probe for the conventional extension and fail with
`FileNotFoundError` when the path is absent; with `create`, force
`read_only = False`, delete any existing file or directory at the path,
and have the engine create a fresh database file there.  (The source's
probe rechecks `os.path.exists(fname)` — not the probed name — inside a
branch where `fname` does not exist, so the probe never rewrites the
name; it is embedded as it is written.) -/
def _lmdb_open (fs : FS) (fname : String) (read_only create : Bool)
    (safety_mode : String) : Except PyErr (FS × LmdbEnvCfg) :=
  if ¬(safety_mode = "a" ∨ safety_mode = "u") then
    .error (.valueError "safety_mode must be one of ('a', 'u')")
  else if ¬create then
    let fname :=
      if ¬fs.contains fname ∧ ¬fname.endsWith ".ydb" then
        if fs.contains fname then fname ++ ".ydb" else fname
      else fname
    if ¬fs.contains fname then .error (.fileNotFoundError fname)
    else .ok (fs, { readonly := read_only })
  else
    let fs := _delete_file_or_dir fs fname
    .ok (fname :: fs, { readonly := false })

/-! ### Helper lemmas -/

/-- Transitivity of the byte-string order `bytesLt`. -/
theorem bytesLt_trans : ∀ {a b c : Bytes},
    bytesLt a b = true → bytesLt b c = true → bytesLt a c = true := by
  intro a
  induction a with
  | nil =>
    intro b c h1 h2
    cases b with
    | nil => simp [bytesLt] at h1
    | cons y ys =>
      cases c with
      | nil => simp [bytesLt] at h2
      | cons z zs => simp [bytesLt]
  | cons x xs ih =>
    intro b c h1 h2
    cases b with
    | nil => simp [bytesLt] at h1
    | cons y ys =>
      cases c with
      | nil => simp [bytesLt] at h2
      | cons z zs =>
        simp only [bytesLt] at h1 h2 ⊢
        by_cases hxy : x < y
        · rw [if_pos hxy] at h1
          by_cases hyz : y < z
          · rw [if_pos (Nat.lt_trans hxy hyz)]
          · rw [if_neg hyz] at h2
            by_cases hzy : z < y
            · rw [if_pos hzy] at h2; exact absurd h2 (by simp)
            · have hyz' : y = z := by omega
              subst hyz'
              rw [if_pos hxy]
        · rw [if_neg hxy] at h1
          by_cases hyx : y < x
          · rw [if_pos hyx] at h1; exact absurd h1 (by simp)
          · have hxy' : x = y := by omega
            subst hxy'
            rw [if_neg hxy] at h1
            by_cases hxz : x < z
            · rw [if_pos hxz]
            · rw [if_neg hxz] at h2 ⊢
              by_cases hzx : z < x
              · rw [if_pos hzx] at h2; exact absurd h2 (by simp)
              · rw [if_neg hzx] at h2 ⊢
                exact ih h1 h2

/-- On a list whose order relation carries predicate `p` backwards
(`R a b → p b → p a`), dropping the initial run satisfying `p` removes
exactly every element satisfying `p`. -/
theorem dropWhile_eq_filter_not_of_pairwise {α : Type} {R : α → α → Prop} {p : α → Bool}
    (hcl : ∀ a b, R a b → p b = true → p a = true) :
    ∀ {l : List α}, l.Pairwise R → l.dropWhile p = l.filter (fun a => !p a) := by
  intro l
  induction l with
  | nil => intro _; rfl
  | cons x t ih =>
    intro hp
    rw [List.pairwise_cons] at hp
    cases hx : p x with
    | true =>
      rw [List.dropWhile_cons_of_pos hx, List.filter_cons_of_neg (by simp [hx])]
      exact ih hp.2
    | false =>
      rw [List.dropWhile_cons_of_neg (by simp [hx]), List.filter_cons_of_pos (by simp [hx])]
      have hall : ∀ y ∈ t, (fun a => !p a) y = true := by
        intro y hy
        cases hpy : p y with
        | true => exact absurd (hcl x y (hp.1 y hy) hpy) (by simp [hx])
        | false => simp [hpy]
      rw [List.filter_eq_self.mpr hall]

/-- On a list whose order relation carries predicate `p` backwards,
taking the initial run satisfying `p` collects exactly every element
satisfying `p`. -/
theorem takeWhile_eq_filter_of_pairwise {α : Type} {R : α → α → Prop} {p : α → Bool}
    (hcl : ∀ a b, R a b → p b = true → p a = true) :
    ∀ {l : List α}, l.Pairwise R → l.takeWhile p = l.filter p := by
  intro l
  induction l with
  | nil => intro _; rfl
  | cons x t ih =>
    intro hp
    rw [List.pairwise_cons] at hp
    cases hx : p x with
    | true =>
      rw [List.takeWhile_cons_of_pos hx, List.filter_cons_of_pos hx]
      rw [ih hp.2]
    | false =>
      rw [List.takeWhile_cons_of_neg (by simp [hx]), List.filter_cons_of_neg (by simp [hx])]
      have hall : ∀ y ∈ t, p y = false := by
        intro y hy
        cases hpy : p y with
        | true => exact absurd (hcl x y (hp.1 y hy) hpy) (by simp [hx])
        | false => rfl
      rw [List.filter_eq_nil_iff.mpr (by intro y hy; simp [hall y hy])]

/-- On a sorted store, positioning at `bst` and iterating until `bsp`
visits exactly the entries whose key is at or beyond `bst` and strictly
below `bsp`, in store order. -/
theorem cursor_range_filter {t : Tbl} (hs : TblSorted t) (bst bsp : Bytes) :
    cursorUpto (cursorFrom t (some bst)) (some bsp)
      = t.filter (fun kv => !bytesLt kv.1 bst && bytesLt kv.1 bsp) := by
  simp only [cursorFrom, cursorUpto]
  have hdrop := dropWhile_eq_filter_not_of_pairwise
    (R := fun a b : Bytes × Bytes => bytesLt a.1 b.1 = true)
    (p := fun kv : Bytes × Bytes => bytesLt kv.1 bst)
    (fun a b hab hb => bytesLt_trans hab hb) hs
  rw [hdrop]
  have hsf : (t.filter (fun kv => !bytesLt kv.1 bst)).Pairwise
      (fun a b : Bytes × Bytes => bytesLt a.1 b.1 = true) :=
    hs.filter _
  have htake := takeWhile_eq_filter_of_pairwise
    (R := fun a b : Bytes × Bytes => bytesLt a.1 b.1 = true)
    (p := fun kv : Bytes × Bytes => bytesLt kv.1 bsp)
    (fun a b hab hb => bytesLt_trans hab hb) hsf
  rw [htake, List.filter_filter]
  apply List.filter_congr
  intro kv _
  exact Bool.and_comm _ _

/-- Looking up a key right after upserting it returns the new value. -/
theorem tblLookup_tblInsert (key value : Bytes) :
    ∀ t : Tbl, tblLookup (tblInsert key value t) key = some value := by
  intro t
  induction t with
  | nil => simp [tblInsert, tblLookup]
  | cons kv rest ih =>
    obtain ⟨k, v⟩ := kv
    simp only [tblInsert]
    by_cases h1 : bytesLt key k = true
    · rw [if_pos h1]; simp [tblLookup]
    · rw [if_neg h1]
      by_cases h2 : key = k
      · rw [if_pos h2]; simp [tblLookup]
      · rw [if_neg h2]
        have hk : ¬(k = key) := fun h => h2 h.symm
        simp only [tblLookup, if_neg hk]
        exact ih

/-- Looking up a name right after upserting it in a metadata map returns
the new entry. -/
theorem metaLookup_metaInsert (name : String) (meta : YunaTableMetadata) :
    ∀ m : MetaTables, metaLookup (metaInsert m name meta) name = some meta := by
  intro m
  induction m with
  | nil => simp [metaInsert, metaLookup]
  | cons kv rest ih =>
    obtain ⟨k, v⟩ := kv
    simp only [metaInsert]
    by_cases h1 : k = name
    · rw [if_pos h1]; simp [metaLookup]
    · rw [if_neg h1]
      simp only [metaLookup, if_neg h1]
      exact ih

/-! ### Claim theorems -/

/-- C1: put-then-get round-trips for the no-codec, serialize-only and
serialize+compress shapes, with `put` storing `compress(serialize(v))` and
`get` applying `decompress` then `deserialize` in that order — but in the
compress-only shape `put` raises `NameError` (the source reads the unbound
name `result`), so the claimed round-trip over every codec configuration
fails on the compress-only one. -/
theorem roundtrip_all_codec_shapes_eval :
    (put_factory false none none none [] (.vbytes [10]) (.vbytes [20]) = .ok [([10], [20])]
      ∧ get_factory none none none [([10], [20])] (.vbytes [10]) .notProvided
          = .ok (.vbytes [20]))
    ∧ (put_factory false (some strPlugins) (some strPlugins) none [] (.vstr "k") (.vstr "v")
        = .ok [([107], [118])]
      ∧ get_factory (some strPlugins) (some strPlugins) none [([107], [118])]
          (.vstr "k") .notProvided = .ok (.vstr "v"))
    ∧ (put_factory false (some strPlugins) (some strPlugins) (some tagCompress) []
          (.vstr "k") (.vstr "hi") = .ok [([107], [7, 104, 105])]
      ∧ serialize_str (.vstr "hi") = .ok [104, 105]
      ∧ tagCompress.compress [104, 105] = .ok [7, 104, 105]
      ∧ get_factory (some strPlugins) (some strPlugins) (some tagCompress)
          [([107], [7, 104, 105])] (.vstr "k") .notProvided = .ok (.vstr "hi"))
    ∧ put_factory false none none (some tagCompress) [] (.vbytes [107]) (.vbytes [118])
        = .error (.nameError "result") :=
  ⟨⟨rfl, rfl⟩, ⟨rfl, rfl⟩, ⟨rfl, rfl, rfl, rfl⟩, rfl⟩

/-- C2: on a compress-only table the claim says `put(k, v)` stores
`compress(v)` and `get(k)` decompresses; the `get` half holds, but `put`
raises `NameError` for every key and value because
`_put_table_compress_factory` compresses the unbound name `result` instead
of `value`, so nothing is ever stored. -/
theorem compress_only_put_get_eval :
    put_factory false none none (some tagCompress) [] (.vbytes [1]) (.vbytes [2, 3])
        = .error (.nameError "result")
    ∧ (∀ read_only kp t key value,
        put_table_compress read_only kp tagCompress t key value
          = (fn_key_serialize kp key).bind (fun _ => .error (.nameError "result")))
    ∧ get_factory none none (some tagCompress) [([1], [7, 2, 3])] (.vbytes [1]) .notProvided
        = .ok (.vbytes [2, 3]) := by
  refine ⟨rfl, ?_, rfl⟩
  intro read_only kp t key value
  simp only [put_table_compress]
  cases fn_key_serialize kp key <;> rfl

/-- C8: every range scan rejects a zero-length `start` or `stop` bound with
the `InvalidKey` error (`ValueError("key cannot be empty string")`) before
the engine store is consulted: the result is this error for every table
content, both for empty text strings and for empty byte strings, across
`keys`, `items`, `values` and the reserved table's raw scan. -/
theorem range_scan_empty_key_rejected :
    (∀ kp t stop, keys_op kp t (some (.vstr "")) stop
        = .error (.valueError "key cannot be empty string"))
    ∧ (∀ kp t stop, keys_op kp t (some (.vbytes [])) stop
        = .error (.valueError "key cannot be empty string"))
    ∧ (∀ kp t, keys_op kp t none (some (.vstr ""))
        = .error (.valueError "key cannot be empty string"))
    ∧ (∀ kp t, keys_op kp t none (some (.vbytes []))
        = .error (.valueError "key cannot be empty string"))
    ∧ (∀ kp vs vc t stop, items_factory kp vs vc t (some (.vstr "")) stop
        = .error (.valueError "key cannot be empty string"))
    ∧ (∀ kp vs vc t, items_factory kp vs vc t none (some (.vstr ""))
        = .error (.valueError "key cannot be empty string"))
    ∧ (∀ kp vs vc t stop, values_factory kp vs vc t (some (.vbytes [])) stop
        = .error (.valueError "key cannot be empty string"))
    ∧ (∀ kp vs vc t, values_factory kp vs vc t none (some (.vbytes []))
        = .error (.valueError "key cannot be empty string"))
    ∧ (∀ store stop, reserved_raw_keys store (some []) stop
        = .error (.valueError "key cannot be empty string"))
    ∧ (∀ store, reserved_raw_keys store none (some [])
        = .error (.valueError "key cannot be empty string")) := by
  refine ⟨fun kp t stop => rfl, fun kp t stop => rfl, fun kp t => rfl, fun kp t => rfl,
    ?_, ?_, ?_, ?_, fun store stop => rfl, fun store => rfl⟩
  · intro kp vs vc t stop
    cases vs <;> cases vc <;> rfl
  · intro kp vs vc t
    cases vs <;> cases vc <;> rfl
  · intro kp vs vc t stop
    cases vs <;> cases vc <;> rfl
  · intro kp vs vc t
    cases vs <;> cases vc <;> rfl

/-- C9: on the reserved table, `raw_get` of an absent byte key with no
default supplied is claimed to fail with `KeyError` naming the requested
key; the source line is `raise KeyError(key)` but the name `key` is
unbound in `raw_get` (its parameter is `bytes_key`), so it raises
`NameError` instead.  With a default supplied the default is returned. -/
theorem reserved_raw_get_missing_key_eval :
    reserved_raw_get [] [98, 97, 122] .notProvided = .error (.nameError "key")
    ∧ PyErr.nameError "key" ≠ PyErr.keyError (.vbytes [98, 97, 122])
    ∧ reserved_raw_get [] [98, 97, 122] (.given .vnone) = .ok .vnone
    ∧ reserved_raw_get [] [98, 97, 122] (.given (.vint 5)) = .ok (.vint 5) :=
  ⟨rfl, by decide, rfl, rfl⟩

/-- C3 (amended): for the codec shapes other than compress-only, with
arguments the configured codecs accept: `put` on a read-only database
fails with the engine's read-only error — raised when the write
transaction begins, so the store is left untouched — and on a writable
database `put` succeeds (upserting the encoded entry) whenever the
encoded key is nonempty. -/
theorem put_read_only_enforcement :
    (∀ kp t key bv bk, fn_key_serialize kp key = .ok bk →
      put_factory true kp none none t key (.vbytes bv) = .error .lmdbReadonlyError
      ∧ (bk ≠ [] →
          put_factory false kp none none t key (.vbytes bv) = .ok (tblInsert bk bv t)))
    ∧ (∀ kp (vs : SerializePlugins) t key value bk bv,
        fn_key_serialize kp key = .ok bk → vs.serialize value = .ok bv →
        put_factory true kp (some vs) none t key value = .error .lmdbReadonlyError
        ∧ (bk ≠ [] →
            put_factory false kp (some vs) none t key value = .ok (tblInsert bk bv t)))
    ∧ (∀ kp (vs : SerializePlugins) (vc : CompressPlugins) t key value bk sv bv,
        fn_key_serialize kp key = .ok bk → vs.serialize value = .ok sv →
        vc.compress sv = .ok bv →
        put_factory true kp (some vs) (some vc) t key value = .error .lmdbReadonlyError
        ∧ (bk ≠ [] →
            put_factory false kp (some vs) (some vc) t key value = .ok (tblInsert bk bv t))) := by
  refine ⟨?_, ?_, ?_⟩
  · intro kp t key bv bk hk
    constructor
    · simp [put_factory, put_table_raw, _lmdb_table_put, hk, Bind.bind, Except.bind]
    · intro hne
      cases bk with
      | nil => exact absurd rfl hne
      | cons b bs =>
        simp [put_factory, put_table_raw, _lmdb_table_put, hk, Bind.bind, Except.bind,
          List.isEmpty]
  · intro kp vs t key value bk bv hk hv
    constructor
    · simp [put_factory, put_table_serialize, _lmdb_table_put, hk, hv, Bind.bind, Except.bind]
    · intro hne
      cases bk with
      | nil => exact absurd rfl hne
      | cons b bs =>
        simp [put_factory, put_table_serialize, _lmdb_table_put, hk, hv, Bind.bind, Except.bind,
          List.isEmpty]
  · intro kp vs vc t key value bk sv bv hk hv hc
    constructor
    · simp [put_factory, put_table_serialize_compress, _lmdb_table_put, hk, hv, hc,
        Bind.bind, Except.bind]
    · intro hne
      cases bk with
      | nil => exact absurd rfl hne
      | cons b bs =>
        simp [put_factory, put_table_serialize_compress, _lmdb_table_put, hk, hv, hc,
          Bind.bind, Except.bind, List.isEmpty]

/-- C3 counterexample: on a compress-only table of a read-only database,
`put` raises `NameError` (unbound `result`), not the claimed read-only
violation; and even on a writable database it raises the same `NameError`
instead of succeeding. -/
theorem put_read_only_compress_only_counterexample :
    put_factory true none none (some tagCompress) [] (.vbytes [5]) (.vbytes [6])
        = .error (.nameError "result")
    ∧ PyErr.nameError "result" ≠ PyErr.lmdbReadonlyError
    ∧ put_factory false none none (some tagCompress) [] (.vbytes [5]) (.vbytes [6])
        = .error (.nameError "result") :=
  ⟨rfl, by decide, rfl⟩

/-- C3 witness: the amended read-only/writable `put` contract at a
concrete raw table. -/
theorem put_read_only_enforcement_witness :
    put_factory true none none none [] (.vbytes [107]) (.vbytes [118])
        = .error .lmdbReadonlyError
    ∧ put_factory false none none none [] (.vbytes [107]) (.vbytes [118])
        = .ok (tblInsert [107] [118] []) := by
  have h := put_read_only_enforcement.1 none [] (.vbytes [107]) [118] [107] rfl
  exact ⟨h.1, h.2 (by decide)⟩

/-- C4: for every table and key absent from it, `get` with an explicitly
supplied default returns that default (including an explicit `None`
default) without raising, `get` with no default supplied fails with
`KeyError` naming the key, and the internal not-provided sentinel is
distinct from every legal default value. -/
theorem get_default_sentinel_semantics :
    (∀ kp vs vc t key bk,
      fn_key_serialize kp key = .ok bk →
      tblLookup t bk = none →
      get_factory kp vs vc t key (.given .vnone) = .ok .vnone
      ∧ (∀ d, get_factory kp vs vc t key (.given d) = .ok d)
      ∧ get_factory kp vs vc t key .notProvided = .error (.keyError key))
    ∧ (∀ v : PyVal, Dflt.given v ≠ Dflt.notProvided) := by
  constructor
  · intro kp vs vc t key bk hk hmiss
    have habs : _lmdb_table_get t bk (.given .vnone) = .ok PyVal.vnone := by
      simp [_lmdb_table_get, hmiss]
    refine ⟨?_, ?_, ?_⟩
    · cases vs <;> cases vc <;>
        simp [get_factory, get_table_raw, get_table_deserialize, get_table_decompress,
          get_table_deserialize_decompress, hk, habs, Bind.bind, Except.bind]
    · intro d
      cases vs <;> cases vc <;>
        simp [get_factory, get_table_raw, get_table_deserialize, get_table_decompress,
          get_table_deserialize_decompress, hk, habs, Bind.bind, Except.bind]
    · cases vs <;> cases vc <;>
        simp [get_factory, get_table_raw, get_table_deserialize, get_table_decompress,
          get_table_deserialize_decompress, hk, habs, Bind.bind, Except.bind]
  · intro v h
    cases h

/-- C4 witness: the default semantics at a concrete empty table. -/
theorem get_default_sentinel_semantics_witness :
    get_factory none none none [] (.vbytes [1]) (.given .vnone) = .ok .vnone
    ∧ get_factory none none none [] (.vbytes [1]) (.given (.vstr "fallback"))
        = .ok (.vstr "fallback")
    ∧ get_factory none none none [] (.vbytes [1]) .notProvided
        = .error (.keyError (.vbytes [1])) := by
  have h := get_default_sentinel_semantics.1 none none none [] (.vbytes [1]) [1] rfl rfl
  exact ⟨h.1, h.2.1 (.vstr "fallback"), h.2.2⟩

/-- C5: range scans visit entries in ascending encoded-key order, starting
at the first entry whose encoded key is at or beyond the encoded `start`
(first entry overall when `start` is omitted) and stopping before the
first entry whose encoded key is at or beyond the encoded `stop`; shown
for `keys`, `items` (value-deserialize shape) and `values` as an equality
with the order-preserving filter of the sorted store, and in particular a
table holding exactly keys a, b, d, e yields exactly d for
`keys(start=c, stop=e)`. -/
theorem range_scan_bounds_semantics :
    (∀ kp t st sp bst bsp,
      TblSorted t →
      _empty_string_key_check (some st) = .ok () →
      _empty_string_key_check (some sp) = .ok () →
      fn_key_serialize kp st = .ok bst →
      fn_key_serialize kp sp = .ok bsp →
      keys_op kp t (some st) (some sp)
        = (t.filter (fun kv => !bytesLt kv.1 bst && bytesLt kv.1 bsp)).mapM
            (fun kv => fn_key_deserialize kp kv.1))
    ∧ (∀ kp t, keys_op kp t none none = t.mapM (fun kv => fn_key_deserialize kp kv.1))
    ∧ (∀ kp (vs : SerializePlugins) t st sp bst bsp,
      TblSorted t →
      _empty_string_key_check (some st) = .ok () →
      _empty_string_key_check (some sp) = .ok () →
      fn_key_serialize kp st = .ok bst →
      fn_key_serialize kp sp = .ok bsp →
      items_table_deserialize kp vs t (some st) (some sp)
        = (t.filter (fun kv => !bytesLt kv.1 bst && bytesLt kv.1 bsp)).mapM
            (fun kv => do
              let k ← fn_key_deserialize kp kv.1
              let v ← vs.deserialize kv.2
              Except.ok (k, v)))
    ∧ (∀ kp t st sp bst bsp,
      TblSorted t →
      _empty_string_key_check (some st) = .ok () →
      _empty_string_key_check (some sp) = .ok () →
      fn_key_serialize kp st = .ok bst →
      fn_key_serialize kp sp = .ok bsp →
      values_table_raw kp t (some st) (some sp)
        = .ok ((t.filter (fun kv => !bytesLt kv.1 bst && bytesLt kv.1 bsp)).map
            (fun kv => PyVal.vbytes kv.2)))
    ∧ keys_op (some strPlugins)
        [([97], [49]), ([98], [50]), ([100], [52]), ([101], [53])]
        (some (.vstr "c")) (some (.vstr "e")) = .ok [.vstr "d"] := by
  refine ⟨?_, ?_, ?_, ?_, rfl⟩
  · intro kp t st sp bst bsp hsort hc1 hc2 hs1 hs2
    simp [keys_op, serializeBound, hc1, hc2, hs1, hs2, Bind.bind, Except.bind,
      cursor_range_filter hsort]
  · intro kp t
    simp [keys_op, serializeBound, _empty_string_key_check, cursorFrom, cursorUpto,
      Bind.bind, Except.bind]
  · intro kp vs t st sp bst bsp hsort hc1 hc2 hs1 hs2
    simp [items_table_deserialize, serializeBound, hc1, hc2, hs1, hs2, Bind.bind, Except.bind,
      cursor_range_filter hsort]
  · intro kp t st sp bst bsp hsort hc1 hc2 hs1 hs2
    simp [values_table_raw, serializeBound, hc1, hc2, hs1, hs2, Bind.bind, Except.bind,
      cursor_range_filter hsort]

/-- C5 witness: the bound semantics applied to the concrete a, b, d, e
table with the `str` key codec and bounds c and e. -/
theorem range_scan_bounds_semantics_witness :
    keys_op (some strPlugins)
        [([97], [49]), ([98], [50]), ([100], [52]), ([101], [53])]
        (some (.vstr "c")) (some (.vstr "e"))
      = (([([97], [49]), ([98], [50]), ([100], [52]), ([101], [53])].filter
            (fun kv => !bytesLt kv.1 [99] && bytesLt kv.1 [101])).mapM
          (fun kv => fn_key_deserialize (some strPlugins) kv.1)) :=
  range_scan_bounds_semantics.1 (some strPlugins)
    [([97], [49]), ([98], [50]), ([100], [52]), ([101], [53])]
    (.vstr "c") (.vstr "e") [99] [101] (by unfold TblSorted; decide) rfl rfl rfl rfl

/-- C10: opening with `create=True` forces a writable handle no matter
what `read_only` argument was passed, and first deletes any existing file
or directory at the path, so an existing database there is destroyed and a
fresh one (empty metadata, no stored record) is created in its place. -/
theorem open_create_forces_writable_and_destroys :
    (∀ fs fname read_only safety_mode,
      safety_mode = "a" ∨ safety_mode = "u" →
      _lmdb_open fs fname read_only true safety_mode
        = .ok (fname :: _delete_file_or_dir fs fname, { readonly := false }))
    ∧ (∀ file read_only,
        Yuna_init file read_only true
          = .ok { file := none
                  shared := { read_only := false, is_dirty := false,
                              tables_map := [], meta_tables := [] } }) := by
  constructor
  · intro fs fname ro sm hsm
    rcases hsm with h | h <;> subst h <;> rfl
  · intro file ro
    rfl

/-- C10 witness: creating over an existing path with `read_only=True`
still yields a writable, freshly created handle. -/
theorem open_create_forces_writable_and_destroys_witness :
    _lmdb_open ["db.ydb"] "db.ydb" true true "a"
        = .ok (["db.ydb"], { readonly := false })
    ∧ Yuna_init (some [("t", { name := "t", key_serialize := none,
                               serialize := none, compress := none })]) true true
        = .ok { file := none
                shared := { read_only := false, is_dirty := false,
                            tables_map := [], meta_tables := [] } } := by
  have h1 := open_create_forces_writable_and_destroys.1 ["db.ydb"] "db.ydb" true "a" (Or.inl rfl)
  have h2 := open_create_forces_writable_and_destroys.2
    (some [("t", { name := "t", key_serialize := none, serialize := none, compress := none })])
    true
  exact ⟨h1, h2⟩

/-- Inversion for a successful `YunaTable_init`: the resulting metadata
map records exactly the requested configuration under the table's name,
and the open flags are untouched. -/
theorem YunaTable_init_ok_meta {db : YunaDB} {name : String}
    {ks s c : Option String} {db' : YunaDB}
    (h : YunaTable_init db name ks s c = .ok db') :
    metaLookup db'.shared.meta_tables name
      = some { name := name, key_serialize := ks, serialize := s, compress := c }
    ∧ db'.shared.read_only = db.shared.read_only
    ∧ db'.shared.is_dirty = db.shared.is_dirty := by
  unfold YunaTable_init at h
  cases hdup : (metaLookup db.shared.tables_map name).isSome <;> rw [hdup] at h
  case true => simp [Bind.bind, Except.bind, throw, throwThe, MonadExceptOf.throw] at h
  case false =>
  simp only [Bool.false_eq_true, if_false, ite_false] at h
  cases hks : get_serialize_plugins_check ks <;> rw [hks] at h <;>
    simp only [Bind.bind, Except.bind] at h
  case error => cases h
  case ok u1 =>
  cases hs : get_serialize_plugins_check s <;> rw [hs] at h <;>
    simp only [Bind.bind, Except.bind] at h
  case error => cases h
  case ok u2 =>
  cases hc : get_compress_plugins_check c <;> rw [hc] at h <;>
    simp only [Bind.bind, Except.bind] at h
  case error => cases h
  case ok u3 =>
  cases hcr : (metaLookup db.shared.meta_tables name).isNone <;> rw [hcr] at h
  case false =>
    simp only [Bool.false_eq_true, if_false, ite_false] at h
    cases hst : metaLookup db.shared.meta_tables name <;> rw [hst] at h <;>
      simp only [pure, Except.pure] at h
    case none => cases h
    case some stored =>
    by_cases heq : stored = { name := name, key_serialize := ks, serialize := s, compress := c }
    · rw [if_pos heq] at h
      cases h
      exact ⟨by rw [hst, heq], rfl, rfl⟩
    · rw [if_neg heq] at h
      cases h
  case true =>
    simp only [if_true, ite_true] at h
    unfold _yuna_put_meta at h
    cases hro : db.shared.read_only <;> rw [hro] at h
    case true => cases h
    case false =>
    simp only [Bool.false_eq_true, if_false, ite_false] at h
    cases h
    refine ⟨?_, rfl, rfl⟩
    exact metaLookup_metaInsert name _ _

/-- Inversion for a successful `Yuna_new_table`: the database was
writable, the dirty flag is set on the result, and the new entry is
recorded in the in-memory metadata under the requested configuration. -/
theorem Yuna_new_table_ok {db : YunaDB} {name : String}
    {ks s c : Option String} {db' : YunaDB}
    (h : Yuna_new_table db name ks s c = .ok db') :
    db'.shared.is_dirty = true
    ∧ db'.shared.read_only = false
    ∧ metaLookup db'.shared.meta_tables name
      = some { name := name, key_serialize := ks, serialize := s, compress := c } := by
  unfold Yuna_new_table at h
  cases hro : db.shared.read_only <;> rw [hro] at h
  case true => simp [Bind.bind, Except.bind, throw, throwThe, MonadExceptOf.throw] at h
  case false =>
  simp only [Bool.false_eq_true, if_false, ite_false] at h
  cases hinit : YunaTable_init db name ks s c <;> rw [hinit] at h <;>
    simp only [Bind.bind, Except.bind] at h
  case error => cases h
  case ok db1 =>
  have hmeta := YunaTable_init_ok_meta hinit
  cases h
  exact ⟨rfl, by rw [hmeta.2.1, hro], hmeta.1⟩

/-- C6: opening a table whose name is already recorded in the database
metadata with a codec configuration different from the stored entry fails
with the schema-mismatch assertion; and after `new_table` followed by
`close` and reopen, the reopened table's codec configuration equals
exactly what was requested at creation. -/
theorem table_schema_guard_and_reopen :
    (∀ db name ks s c m0,
      metaLookup db.shared.tables_map name = none →
      get_serialize_plugins_check ks = .ok () →
      get_serialize_plugins_check s = .ok () →
      get_compress_plugins_check c = .ok () →
      metaLookup db.shared.meta_tables name = some m0 →
      m0 ≠ { name := name, key_serialize := ks, serialize := s, compress := c } →
      YunaTable_init db name ks s c = .error .assertionError)
    ∧ (∀ name ks s c read_only2,
      get_serialize_plugins_check ks = .ok () →
      get_serialize_plugins_check s = .ok () →
      get_compress_plugins_check c = .ok () →
      ∃ db1 db2,
        (Yuna_init none false true >>= fun db0 => Yuna_new_table db0 name ks s c) = .ok db1
        ∧ Yuna_init (Yuna_close db1).file read_only2 false = .ok db2
        ∧ metaLookup db2.shared.meta_tables name
            = some { name := name, key_serialize := ks, serialize := s, compress := c }
        ∧ metaLookup db2.shared.tables_map name
            = some { name := name, key_serialize := ks, serialize := s, compress := c }) := by
  constructor
  · intro db name ks s c m0 hdup hks hs hc hm hne
    simp [YunaTable_init, hdup, hks, hs, hc, hm, hne, Bind.bind, Except.bind,
      pure, Except.pure, throw, throwThe, MonadExceptOf.throw]
  · intro name ks s c ro2 hks hs hc
    refine
      ⟨{ file := some [(name, { name := name, key_serialize := ks,
                                serialize := s, compress := c })]
         shared :=
           { read_only := false, is_dirty := true
             tables_map := [(name, { name := name, key_serialize := ks,
                                     serialize := s, compress := c })]
             meta_tables := [(name, { name := name, key_serialize := ks,
                                      serialize := s, compress := c })] } },
       { file := some [(name, { name := name, key_serialize := ks,
                                serialize := s, compress := c })]
         shared :=
           { read_only := ro2, is_dirty := false
             tables_map := [(name, { name := name, key_serialize := ks,
                                     serialize := s, compress := c })]
             meta_tables := [(name, { name := name, key_serialize := ks,
                                      serialize := s, compress := c })] } },
       ?_, ?_, ?_, ?_⟩
    · simp [Yuna_init, Yuna_new_table, YunaTable_init, _yuna_put_meta,
        metaLookup, metaInsert, hks, hs, hc, Bind.bind, Except.bind,
        pure, Except.pure, List.foldlM_nil, List.foldlM_cons]
    · simp [Yuna_init, Yuna_close, YunaTable_init, _yuna_get_meta, _yuna_put_meta,
        metaLookup, metaInsert, hks, hs, hc, Bind.bind, Except.bind,
        pure, Except.pure, List.foldlM_nil, List.foldlM_cons]
    · simp [metaLookup]
    · simp [metaLookup]

/-- C6 witness: creating table t with the str key codec, JSON value codec
and no compression, then closing and reopening, restores exactly that
configuration; requesting different codecs for the stored name fails with
the schema-mismatch assertion. -/
theorem table_schema_guard_and_reopen_witness :
    (∃ db1 db2,
      (Yuna_init none false true >>= fun db0 =>
        Yuna_new_table db0 "t" (some "str") (some "json") none) = .ok db1
      ∧ Yuna_init (Yuna_close db1).file true false = .ok db2
      ∧ metaLookup db2.shared.meta_tables "t"
          = some { name := "t", key_serialize := some "str",
                   serialize := some "json", compress := none }
      ∧ metaLookup db2.shared.tables_map "t"
          = some { name := "t", key_serialize := some "str",
                   serialize := some "json", compress := none })
    ∧ YunaTable_init
        { file := some [("t", { name := "t", key_serialize := some "str",
                                serialize := some "json", compress := none })]
          shared := { read_only := true, is_dirty := false, tables_map := []
                      meta_tables := [("t", { name := "t", key_serialize := some "str",
                                              serialize := some "json", compress := none })] } }
        "t" (some "str") (some "msgpack") none
      = .error .assertionError := by
  constructor
  · exact table_schema_guard_and_reopen.2 "t" (some "str") (some "json") none true
      rfl rfl rfl
  · exact table_schema_guard_and_reopen.1 _ "t" (some "str") (some "msgpack") none
      _ rfl rfl rfl rfl rfl (by decide)

/-- C7: the dirty flag is set by every metadata-mutating operation
(`new_table` sets it, `drop` sets it) and is cleared only after the
metadata record has been written, which `close` and `sync` do exactly when
the database is writable and dirty; on a read-only database neither writes
the record; and a successfully returned table handle's entry is in the
in-memory metadata and is persisted by the next `close` (`sync` reaches
the same state before its trailing engine-sync `NameError`). -/
theorem dirty_flag_invariant :
    (∀ db name ks s c db', Yuna_new_table db name ks s c = .ok db' →
      db'.shared.is_dirty = true)
    ∧ (∀ db name db', YunaTable_drop db name = .ok db' → db'.shared.is_dirty = true)
    ∧ (∀ db : YunaDB, db.shared.read_only = false → db.shared.is_dirty = true →
      (Yuna_close db).file = some db.shared.meta_tables
      ∧ (Yuna_close db).shared.is_dirty = false
      ∧ (Yuna_sync db).1.file = some db.shared.meta_tables
      ∧ (Yuna_sync db).1.shared.is_dirty = false)
    ∧ (∀ db : YunaDB, db.shared.read_only = true →
      (Yuna_close db).file = db.file ∧ (Yuna_sync db).1.file = db.file)
    ∧ (∀ db name ks s c db', Yuna_new_table db name ks s c = .ok db' →
      metaLookup db'.shared.meta_tables name
        = some { name := name, key_serialize := ks, serialize := s, compress := c }
      ∧ (Yuna_close db').file = some db'.shared.meta_tables
      ∧ metaLookup
          (match (Yuna_close db').file with
            | some m => m
            | none => []) name
        = some { name := name, key_serialize := ks, serialize := s, compress := c }) := by
  refine ⟨?_, ?_, ?_, ?_, ?_⟩
  · intro db name ks s c db' h
    exact (Yuna_new_table_ok h).1
  · intro db name db' h
    unfold YunaTable_drop at h
    cases hro : db.shared.read_only <;> rw [hro] at h
    case true => cases h
    case false =>
      simp only [Bool.false_eq_true, if_false, ite_false] at h
      cases h
      rfl
  · intro db hro hdirty
    have hclose : Yuna_close db
        = { db with
            file := some db.shared.meta_tables
            shared := { db.shared with is_dirty := false } } := by
      unfold Yuna_close
      rw [if_pos ⟨by rw [hdirty], hro⟩]
    exact ⟨by rw [hclose], by rw [hclose], by simp [Yuna_sync, hclose],
      by simp [Yuna_sync, hclose]⟩
  · intro db hro
    have hclose : Yuna_close db = db := by
      unfold Yuna_close
      rw [if_neg (fun hand => by simp [hro] at hand)]
    exact ⟨by rw [hclose], by simp [Yuna_sync, hclose]⟩
  · intro db name ks s c db' h
    have hok := Yuna_new_table_ok h
    have hclose : Yuna_close db'
        = { db' with
            file := some db'.shared.meta_tables
            shared := { db'.shared with is_dirty := false } } := by
      unfold Yuna_close
      rw [if_pos ⟨by rw [hok.1], hok.2.1⟩]
    refine ⟨hok.2.2, by rw [hclose], ?_⟩
    rw [hclose]
    exact hok.2.2

/-- C7 witness: the dirty-flag life cycle on a concrete created database
with one new table. -/
theorem dirty_flag_invariant_witness :
    ∃ db1,
      Yuna_new_table
        { file := none
          shared := { read_only := false, is_dirty := false
                      tables_map := [], meta_tables := [] } }
        "t" none none none = .ok db1
      ∧ db1.shared.is_dirty = true
      ∧ metaLookup db1.shared.meta_tables "t"
          = some { name := "t", key_serialize := none, serialize := none, compress := none }
      ∧ (Yuna_close db1).file = some db1.shared.meta_tables := by
  have h : Yuna_new_table
      { file := none
        shared := { read_only := false, is_dirty := false
                    tables_map := [], meta_tables := [] } }
      "t" none none none
      = .ok { file := some [("t", { name := "t", key_serialize := none,
                                    serialize := none, compress := none })]
              shared := { read_only := false, is_dirty := true
                          tables_map := [("t", { name := "t", key_serialize := none,
                                                 serialize := none, compress := none })]
                          meta_tables := [("t", { name := "t", key_serialize := none,
                                                  serialize := none, compress := none })] } } :=
    rfl
  exact ⟨_, h, dirty_flag_invariant.1 _ "t" none none none _ h,
    (dirty_flag_invariant.2.2.2.2 _ "t" none none none _ h).1,
    (dirty_flag_invariant.2.2.2.2 _ "t" none none none _ h).2.1⟩

end YunaModel






